import Mathlib

/-!
Verification development for the pc-ps2-controller repository (an 8042-class
PS/2 keyboard/auxiliary-device controller driver).

The Rust sources are shallowly embedded: machine bytes are Nat values
(with explicit masking where the source truncates), bitflags operations
become bitwise operations on Nat, stateful code becomes explicit state
passing, fallible code returns Except/Option, and panics are modelled as
Option results (none = panic).  Writes to the device or the I/O ports are
collected in explicit trace lists so that theorems can speak about which
bytes the driver emitted.
-/

set_option maxHeartbeats 1000000
set_option maxRecDepth 4096

namespace Ps2

/-! ## Status register decoder (src/controller/driver/status.rs, src/controller/raw.rs) -/

namespace StatusRegister

def KEYBOARD_PARITY_ERROR : Nat := 0b10000000

def GENERAL_TIMEOUT : Nat := 0b01000000

def AUXILIARY_DEVICE_OUTPUT_BUFFER_FULL : Nat := 0b00100000

def INHIBIT_SWITCH : Nat := 0b00010000

def COMMAND_OR_DATA : Nat := 0b00001000

def SYSTEM_FLAG : Nat := 0b00000100

def INPUT_BUFFER_FULL : Nat := 0b00000010

def OUTPUT_BUFFER_FULL : Nat := 0b00000001

/-- Mask of all flag bits declared in the bitflags block (all eight bits of
the byte), so that from_bits_truncate keeps the low eight bits. -/
def allBits : Nat := 0xFF

/-- Embedding of bitflags from_bits_truncate: keep only declared bits. -/
def from_bits_truncate (raw : Nat) : Nat := raw &&& allBits

/-- Embedding of bitflags contains: every bit of the given flag set is set. -/
def contains (register flags : Nat) : Bool := register &&& flags == flags

end StatusRegister

inductive DataOwner
  | KeyboardOrCommandController
  | AuxiliaryDevice
deriving DecidableEq

namespace StatusInfo

/-- StatusInfo::data_availability from the source: the first branch tests
contains(AUXILIARY_DEVICE_OUTPUT_BUFFER_FULL | OUTPUT_BUFFER_FULL), the
second contains(OUTPUT_BUFFER_FULL). -/
def data_availability (register : Nat) : Option DataOwner :=
  if StatusRegister.contains register
      (StatusRegister.AUXILIARY_DEVICE_OUTPUT_BUFFER_FULL |||
       StatusRegister.OUTPUT_BUFFER_FULL) then
    some DataOwner.AuxiliaryDevice
  else if StatusRegister.contains register StatusRegister.OUTPUT_BUFFER_FULL then
    some DataOwner.KeyboardOrCommandController
  else
    none

/-- StatusInfo::input_buffer_full from the source. -/
def input_buffer_full (register : Nat) : Bool :=
  StatusRegister.contains register StatusRegister.INPUT_BUFFER_FULL

end StatusInfo

/-! ## Keyboard wire-protocol constants (src/device/keyboard/raw.rs) -/

namespace FromKeyboard

def KEY_DETECTION_OVERRUN_SCANCODE_SET_2_AND_3 : Nat := 0

def ID_FIRST_BYTE : Nat := 0xAB

def ID_SECOND_BYTE : Nat := 0x83

def BAT_COMPLETION_CODE : Nat := 0xAA

def BAT_FAILURE_CODE : Nat := 0xFC

def ECHO : Nat := 0xEE

def ACK : Nat := 0xFA

def RESEND : Nat := 0xFE

def KEY_DETECTION_OVERRUN_SCANCODE_SET_1 : Nat := 0xFF

end FromKeyboard

namespace CommandReturnData

def DEFAULT_DISABLE : Nat := 0xF5

def ECHO : Nat := 0xEE

def ENABLE : Nat := 0xF4

def READ_ID : Nat := 0xF2

def SELECT_ALTERNATE_SCANCODES : Nat := 0xF0

def SET_DEFAULT : Nat := 0xF6

def SET_STATUS_INDICATORS : Nat := 0xED

def SET_TYPEMATIC_RATE : Nat := 0xF3

end CommandReturnData

/-! ## Device command queue (src/device/command_queue.rs) -/

inductive AckResponseWithReturnTwoBytesState
  | WaitAck
  | WaitFirstByte
  | WaitSecondByte
deriving DecidableEq

inductive SendCommandAndDataState
  | WaitAck1
  | WaitAck2
deriving DecidableEq

inductive SendCommandAndDataAndReceiveResponseState
  | WaitAck1
  | WaitAck2
  | WaitResponse
deriving DecidableEq

/-- The Command enum: one case per keyboard command shape, each carrying its
own sub-state-machine cursor, exactly as in the source. -/
inductive Command
  | Echo (command : Nat)
  | AckResponse (command : Nat)
  | AckResponseWithReturnTwoBytes
      (command byte1 byte2 : Nat) (state : AckResponseWithReturnTwoBytesState)
  | SendCommandAndData (command data : Nat) (state : SendCommandAndDataState)
  | SendCommandAndDataSingleAck
      (command data scancode_received_after_this_command : Nat)
      (state : SendCommandAndDataState)
  | SendCommandAndDataAndReceiveResponse
      (command data response : Nat) (state : SendCommandAndDataAndReceiveResponseState)
deriving DecidableEq

inductive Status
  | UnexpectedData (data : Nat)
  | CommandInProgress
  | CommandFinished (command : Command)
deriving DecidableEq

namespace Command

/-- The command field shared by every variant; CommandChecker::send_new_command
sends exactly this byte for each variant. -/
def commandByte : Command → Nat
  | .Echo command => command
  | .AckResponse command => command
  | .AckResponseWithReturnTwoBytes command _ _ _ => command
  | .SendCommandAndData command _ _ => command
  | .SendCommandAndDataSingleAck command _ _ _ => command
  | .SendCommandAndDataAndReceiveResponse command _ _ _ => command

end Command

structure CommandChecker where
  current_command : Option Command
deriving DecidableEq

namespace CommandChecker

def new : CommandChecker := ⟨none⟩

/-- CommandChecker::send_new_command: sends the command byte of the variant
to the device and stores the command as the in-flight one.  The second
component is the list of bytes written to the device. -/
def send_new_command (command : Command) : CommandChecker × List Nat :=
  (⟨some command⟩, [command.commandByte])

/-- CommandChecker::receive_data.  Returns the new checker, the bytes written
to the device during this call, and the optional Status result, mirroring
the source arm by arm (including the early returns on RESEND, which leave
the command in flight via send_new_command). -/
def receive_data (ch : CommandChecker) (new_data : Nat) :
    CommandChecker × List Nat × Option Status :=
  match ch.current_command with
  | none => (⟨none⟩, [], none)
  | some cmd =>
    match cmd with
    | .Echo command =>
      if new_data = FromKeyboard.ECHO then
        (⟨none⟩, [], some (.CommandFinished (.Echo command)))
      else if new_data = FromKeyboard.RESEND then
        let (ch', sent) := send_new_command (.Echo command)
        (ch', sent, none)
      else
        (⟨some (.Echo command)⟩, [], some (.UnexpectedData new_data))
    | .AckResponse command =>
      if new_data = FromKeyboard.ACK then
        (⟨none⟩, [], some (.CommandFinished (.AckResponse command)))
      else if new_data = FromKeyboard.RESEND then
        let (ch', sent) := send_new_command (.AckResponse command)
        (ch', sent, none)
      else
        (⟨some (.AckResponse command)⟩, [], some (.UnexpectedData new_data))
    | .AckResponseWithReturnTwoBytes command byte1 byte2 .WaitAck =>
      if new_data = FromKeyboard.ACK then
        (⟨some (.AckResponseWithReturnTwoBytes command byte1 byte2 .WaitFirstByte)⟩,
         [], some .CommandInProgress)
      else if new_data = FromKeyboard.RESEND then
        let (ch', sent) :=
          send_new_command (.AckResponseWithReturnTwoBytes command byte1 byte2 .WaitAck)
        (ch', sent, none)
      else
        (⟨some (.AckResponseWithReturnTwoBytes command byte1 byte2 .WaitAck)⟩,
         [], some (.UnexpectedData new_data))
    | .AckResponseWithReturnTwoBytes command _ byte2 .WaitFirstByte =>
      (⟨some (.AckResponseWithReturnTwoBytes command new_data byte2 .WaitSecondByte)⟩,
       [], some .CommandInProgress)
    | .AckResponseWithReturnTwoBytes command byte1 _ .WaitSecondByte =>
      (⟨none⟩, [],
       some (.CommandFinished
         (.AckResponseWithReturnTwoBytes command byte1 new_data .WaitSecondByte)))
    | .SendCommandAndData command data .WaitAck1 =>
      if new_data = FromKeyboard.ACK then
        (⟨some (.SendCommandAndData command data .WaitAck2)⟩,
         [data], some .CommandInProgress)
      else if new_data = FromKeyboard.RESEND then
        let (ch', sent) := send_new_command (.SendCommandAndData command data .WaitAck1)
        (ch', sent, none)
      else
        (⟨some (.SendCommandAndData command data .WaitAck1)⟩,
         [], some (.UnexpectedData new_data))
    | .SendCommandAndData command data .WaitAck2 =>
      if new_data = FromKeyboard.ACK then
        (⟨none⟩, [],
         some (.CommandFinished (.SendCommandAndData command data .WaitAck2)))
      else if new_data = FromKeyboard.RESEND then
        (⟨some (.SendCommandAndData command data .WaitAck2)⟩,
         [data], some .CommandInProgress)
      else
        (⟨some (.SendCommandAndData command data .WaitAck2)⟩,
         [], some (.UnexpectedData new_data))
    | .SendCommandAndDataSingleAck command data sc .WaitAck1 =>
      if new_data = FromKeyboard.ACK then
        (⟨some (.SendCommandAndDataSingleAck command data sc .WaitAck2)⟩,
         [data], some .CommandInProgress)
      else if new_data = FromKeyboard.RESEND then
        let (ch', sent) :=
          send_new_command (.SendCommandAndDataSingleAck command data sc .WaitAck1)
        (ch', sent, none)
      else
        (⟨some (.SendCommandAndDataSingleAck command data sc .WaitAck1)⟩,
         [], some (.UnexpectedData new_data))
    | .SendCommandAndDataSingleAck command data sc .WaitAck2 =>
      if new_data = FromKeyboard.RESEND then
        (⟨some (.SendCommandAndDataSingleAck command data sc .WaitAck2)⟩,
         [data], some .CommandInProgress)
      else
        (⟨none⟩, [],
         some (.CommandFinished
           (.SendCommandAndDataSingleAck command data new_data .WaitAck2)))
    | .SendCommandAndDataAndReceiveResponse command data response .WaitAck1 =>
      if new_data = FromKeyboard.ACK then
        (⟨some (.SendCommandAndDataAndReceiveResponse command data response .WaitAck2)⟩,
         [data], some .CommandInProgress)
      else if new_data = FromKeyboard.RESEND then
        let (ch', sent) :=
          send_new_command
            (.SendCommandAndDataAndReceiveResponse command data response .WaitAck1)
        (ch', sent, none)
      else
        (⟨some (.SendCommandAndDataAndReceiveResponse command data response .WaitAck1)⟩,
         [], some (.UnexpectedData new_data))
    | .SendCommandAndDataAndReceiveResponse command data response .WaitAck2 =>
      if new_data = FromKeyboard.ACK then
        (⟨some (.SendCommandAndDataAndReceiveResponse command data response .WaitResponse)⟩,
         [], some .CommandInProgress)
      else if new_data = FromKeyboard.RESEND then
        (⟨some (.SendCommandAndDataAndReceiveResponse command data response .WaitAck2)⟩,
         [data], some .CommandInProgress)
      else
        (⟨some (.SendCommandAndDataAndReceiveResponse command data response .WaitAck2)⟩,
         [], some .CommandInProgress)
    | .SendCommandAndDataAndReceiveResponse command data _ .WaitResponse =>
      (⟨none⟩, [],
       some (.CommandFinished
         (.SendCommandAndDataAndReceiveResponse command data new_data .WaitResponse)))

end CommandChecker

/-- The bounded FIFO of pending commands plus the checker.  The arraydeque
of the source has a fixed capacity chosen by the array type parameter; it is
kept here as the cap field.  Saturating push_back fails with a capacity
error carrying the rejected element and leaves the deque unchanged. -/
structure CommandQueue where
  cap : Nat
  commands : List Command
  command_checker : CommandChecker
deriving DecidableEq

namespace CommandQueue

def new (cap : Nat) : CommandQueue := ⟨cap, [], CommandChecker.new⟩

/-- CommandQueue::space_available: capacity - len >= count (usize arithmetic;
len never exceeds capacity in the real deque, matching Nat subtraction). -/
def space_available (q : CommandQueue) (count : Nat) : Bool :=
  q.cap - q.commands.length ≥ count

/-- CommandQueue::add: push_back onto the saturating deque, then, if no
command is currently in flight, pop the front command and start it.
Returns the new queue, the bytes written to the device, and push_back's
result (error carries the rejected command, as CapacityError does). -/
def add (q : CommandQueue) (command : Command) :
    CommandQueue × List Nat × Except Command Unit :=
  let pushed :=
    if q.commands.length < q.cap then (q.commands ++ [command], Except.ok ())
    else (q.commands, Except.error command)
  if q.command_checker.current_command.isNone then
    match pushed.1 with
    | [] => (⟨q.cap, [], q.command_checker⟩, [], pushed.2)
    | c :: rest =>
      let (ch, sent) := CommandChecker.send_new_command c
      (⟨q.cap, rest, ch⟩, sent, pushed.2)
  else
    (⟨q.cap, pushed.1, q.command_checker⟩, [], pushed.2)

/-- CommandQueue::receive_data: feed the byte to the checker; when the
checker reports CommandFinished, pop the next queued command (if any) and
start it. -/
def receive_data (q : CommandQueue) (new_data : Nat) :
    CommandQueue × List Nat × Option Status :=
  let (ch, sent, result) := q.command_checker.receive_data new_data
  match result with
  | some (Status.CommandFinished c) =>
    match q.commands with
    | [] => (⟨q.cap, [], ch⟩, sent, some (Status.CommandFinished c))
    | c2 :: rest =>
      let (ch2, sent2) := CommandChecker.send_new_command c2
      (⟨q.cap, rest, ch2⟩, sent ++ sent2, some (Status.CommandFinished c))
  | _ => (⟨q.cap, q.commands, ch⟩, sent, result)

/-- CommandQueue::empty. -/
def empty (q : CommandQueue) : Bool :=
  q.commands.length == 0 && q.command_checker.current_command.isNone

end CommandQueue

/-! ## Keyboard session (src/device/keyboard/driver.rs)

The scancode decoder is the external pc_keyboard crate (spec: an external
collaborator consumed as a scancode decoder).  Its state is modelled as the
active decoding table plus the list of bytes already fed to the fresh decoder
instance; its output for a byte is an external oracle function passed to
Keyboard::receive_data, mirroring the stateful decode call. -/

inductive ScancodeDecoderSetting
  | Set1
  | Set2
deriving DecidableEq

inductive KeyboardScancodeSetting
  | Set1
  | Set2
  | Set3
deriving DecidableEq

/-- toNat of the repr(u8) KeyboardScancodeSetting (Set1 = 1, then 2, 3). -/
def KeyboardScancodeSetting.toNat : KeyboardScancodeSetting → Nat
  | .Set1 => 1
  | .Set2 => 2
  | .Set3 => 3

/-- External decoder oracle: given the active table, the bytes already fed
to the current decoder instance and the new byte, produce the pc_keyboard
result (decode error code, or an optional key event; both are left abstract
as naturals because the session only passes them through). -/
def DecodeOracle : Type :=
  ScancodeDecoderSetting → List Nat → Nat → Except Nat (Option Nat)

structure ScancodeDecoder where
  setting : ScancodeDecoderSetting
  fed : List Nat
deriving DecidableEq

namespace ScancodeDecoder

/-- ScancodeDecoder::new - defaults to scancode set 2, fresh decoder. -/
def new : ScancodeDecoder := ⟨.Set2, []⟩

/-- ScancodeDecoder::decode: feed the byte to the active decoder instance
and return the external result. -/
def decode (oracle : DecodeOracle) (d : ScancodeDecoder) (scancode : Nat) :
    ScancodeDecoder × Except Nat (Option Nat) :=
  (⟨d.setting, d.fed ++ [scancode]⟩, oracle d.setting d.fed scancode)

/-- ScancodeDecoder::change_decoder: replaces the decoder with a brand-new
instance for the requested set. -/
def change_decoder (_ : ScancodeDecoder) (setting : ScancodeDecoderSetting) :
    ScancodeDecoder :=
  ⟨setting, []⟩

end ScancodeDecoder

inductive KState
  | ScancodesDisabled
  | ScancodesEnabled
deriving DecidableEq

inductive KeyboardError
  | KeyDetectionError
  | BATCompletionFailure
  | UnknownScancodeSet (n : Nat)
  | ScancodeParsingError (e : Nat)
deriving DecidableEq

inductive KeyboardEvent
  | Key (e : Nat)
  | BATCompleted
  | ID (byte1 byte2 : Nat)
  | ScancodeSet (s : KeyboardScancodeSetting)
  | Echo
deriving DecidableEq

structure NotEnoughSpaceInTheCommandQueue where
deriving DecidableEq

structure Keyboard where
  commands : CommandQueue
  state : KState
  scancode_reader : ScancodeDecoder
deriving DecidableEq

namespace Keyboard

/-- Keyboard::set_scancode_decoder. -/
def set_scancode_decoder (kb : Keyboard) (setting : ScancodeDecoderSetting) :
    Keyboard :=
  { kb with scancode_reader := kb.scancode_reader.change_decoder setting }

/-- Keyboard::receive_data.  Returns the new session state, the bytes
written to the device and the result, mirroring the source: the three
sentinel codes are intercepted first; with an idle queue a RESEND is
swallowed and any other byte decoded as a scancode; with an active queue
the byte goes to the command protocol and its Status is interpreted. -/
def receive_data (oracle : DecodeOracle) (kb : Keyboard) (new_data : Nat) :
    Keyboard × List Nat × Except KeyboardError (Option KeyboardEvent) :=
  if new_data = FromKeyboard.KEY_DETECTION_OVERRUN_SCANCODE_SET_1 ∨
     new_data = FromKeyboard.KEY_DETECTION_OVERRUN_SCANCODE_SET_2_AND_3 then
    (kb, [], .error .KeyDetectionError)
  else if new_data = FromKeyboard.BAT_FAILURE_CODE then
    (kb, [], .error .BATCompletionFailure)
  else if new_data = FromKeyboard.BAT_COMPLETION_CODE then
    ({ kb with state := .ScancodesEnabled,
               scancode_reader := kb.scancode_reader.change_decoder .Set2 },
     [], .ok (some .BATCompleted))
  else
    if kb.commands.empty then
      if new_data = FromKeyboard.RESEND then
        (kb, [], .ok none)
      else
        let (reader, r) := kb.scancode_reader.decode oracle new_data
        ({ kb with scancode_reader := reader }, [],
         match r with
         | .ok o => .ok (o.map KeyboardEvent.Key)
         | .error e => .error (.ScancodeParsingError e))
    else
      let (q, sent, st) := kb.commands.receive_data new_data
      let kb := { kb with commands := q }
      match st with
      | some (.CommandFinished (.SendCommandAndDataSingleAck _ _ data _)) =>
        let (reader, r) := kb.scancode_reader.decode oracle data
        ({ kb with scancode_reader := reader }, sent,
         match r with
         | .ok o => .ok (o.map KeyboardEvent.Key)
         | .error e => .error (.ScancodeParsingError e))
      | some (.UnexpectedData data) =>
        let (reader, r) := kb.scancode_reader.decode oracle data
        ({ kb with scancode_reader := reader }, sent,
         match r with
         | .ok o => .ok (o.map KeyboardEvent.Key)
         | .error e => .error (.ScancodeParsingError e))
      | some (.CommandFinished (.AckResponseWithReturnTwoBytes c byte1 byte2 _)) =>
        if c = CommandReturnData.READ_ID then
          (kb, sent, .ok (some (.ID byte1 byte2)))
        else
          (kb, sent, .ok none)
      | some (.CommandFinished (.SendCommandAndDataAndReceiveResponse c _ response _)) =>
        if c = CommandReturnData.SELECT_ALTERNATE_SCANCODES then
          if response = 1 then
            (kb.set_scancode_decoder .Set1, sent,
             .ok (some (.ScancodeSet .Set1)))
          else if response = 2 then
            (kb.set_scancode_decoder .Set2, sent,
             .ok (some (.ScancodeSet .Set2)))
          else if response = 3 then
            (kb, sent, .ok (some (.ScancodeSet .Set3)))
          else
            (kb, sent, .error (.UnknownScancodeSet response))
        else
          (kb, sent, .ok none)
      | some (.CommandFinished (.Echo _)) =>
        (kb, sent, .ok (some .Echo))
      | _ => (kb, sent, .ok none)

end Keyboard

/-! ## Keyboard command factories and command-issuing session methods -/

inductive DelayMilliseconds
  | Delay250
  | Delay500
  | Delay750
  | Delay1000
deriving DecidableEq

def DelayMilliseconds.toNat : DelayMilliseconds → Nat
  | .Delay250 => 0
  | .Delay500 => 0b00100000
  | .Delay750 => 0b01000000
  | .Delay1000 => 0b01100000

structure RateValue where
  value : Nat
deriving DecidableEq

namespace RateValue

/-- RateValue::new.  The source panics when value has a bit outside the low
five; the panic is modelled as none (!0b00011111 on a u8 is 0b11100000). -/
def new (value : Nat) : Option RateValue :=
  if value &&& 0b11100000 ≠ 0 then
    none
  else
    some ⟨value⟩

end RateValue

inductive SetAllKeys
  | Typematic
  | MakeSlashBreak
  | Make
  | TypematicSlashMakeSlashBreak
deriving DecidableEq

def SetAllKeys.toNat : SetAllKeys → Nat
  | .Typematic => 0xF7
  | .MakeSlashBreak => 0xF8
  | .Make => 0xF9
  | .TypematicSlashMakeSlashBreak => 0xFA

inductive SetKeyType
  | Typematic
  | MakeSlashBreak
  | Make
deriving DecidableEq

def SetKeyType.toNat : SetKeyType → Nat
  | .Typematic => 0xFB
  | .MakeSlashBreak => 0xFC
  | .Make => 0xFD

namespace Command

def default_disable : Command := .AckResponse CommandReturnData.DEFAULT_DISABLE

def set_default : Command := .AckResponse CommandReturnData.SET_DEFAULT

def read_id : Command :=
  .AckResponseWithReturnTwoBytes CommandReturnData.READ_ID 0 0 .WaitAck

def enable : Command := .AckResponse CommandReturnData.ENABLE

def set_status_indicators (data : Nat) : Command :=
  .SendCommandAndData CommandReturnData.SET_STATUS_INDICATORS data .WaitAck1

def scancode_set_3_set_all_keys (command : SetAllKeys) : Command :=
  .AckResponse command.toNat

def scancode_set_3_set_key_type (command : SetKeyType) (scancode : Nat) : Command :=
  .SendCommandAndDataSingleAck command.toNat scancode 0 .WaitAck1

def set_typematic_rate (delay : DelayMilliseconds) (rate : RateValue) : Command :=
  .SendCommandAndData CommandReturnData.SET_TYPEMATIC_RATE
    (delay.toNat ||| rate.value) .WaitAck1

def set_alternate_scancodes (scancode_setting : KeyboardScancodeSetting) : Command :=
  .SendCommandAndData CommandReturnData.SELECT_ALTERNATE_SCANCODES
    scancode_setting.toNat .WaitAck1

def get_current_scancode_set : Command :=
  .SendCommandAndDataAndReceiveResponse
    CommandReturnData.SELECT_ALTERNATE_SCANCODES 0 0 .WaitAck1

def echo : Command := .Echo CommandReturnData.ECHO

end Command

namespace Keyboard

/-- Common shape of the single-command session methods: check
space_available(1); on success optionally set the coarse session state
(done inside the success branch in every source method), then add and
unwrap.  The outer Option models the unwrap panic (none = panic); the
methods of the source are each embedded below by instantiating the queued
command, mirroring their bodies. -/
def addOne (kb : Keyboard) (newState : Option KState) (command : Command) :
    Option (Keyboard × List Nat × Except NotEnoughSpaceInTheCommandQueue Unit) :=
  if kb.commands.space_available 1 then
    let kb :=
      match newState with
      | some s => { kb with state := s }
      | none => kb
    let (q, sent, r) := kb.commands.add command
    match r with
    | .ok () => some ({ kb with commands := q }, sent, .ok ())
    | .error _ => none
  else
    some (kb, [], .error ⟨⟩)

/-- Keyboard::set_defaults_and_disable (also sets state to disabled). -/
def set_defaults_and_disable (kb : Keyboard) :
    Option (Keyboard × List Nat × Except NotEnoughSpaceInTheCommandQueue Unit) :=
  addOne kb (some .ScancodesDisabled) Command.default_disable

/-- Keyboard::set_defaults_and_enable. -/
def set_defaults_and_enable (kb : Keyboard) :
    Option (Keyboard × List Nat × Except NotEnoughSpaceInTheCommandQueue Unit) :=
  addOne kb (some .ScancodesEnabled) Command.set_default

/-- Keyboard::enable. -/
def enable (kb : Keyboard) :
    Option (Keyboard × List Nat × Except NotEnoughSpaceInTheCommandQueue Unit) :=
  addOne kb (some .ScancodesEnabled) Command.enable

/-- Keyboard::set_status_indicators. -/
def set_status_indicators (kb : Keyboard) (indicators : Nat) :
    Option (Keyboard × List Nat × Except NotEnoughSpaceInTheCommandQueue Unit) :=
  addOne kb none (Command.set_status_indicators indicators)

/-- Keyboard::scancode_set_3_set_all_keys. -/
def scancode_set_3_set_all_keys (kb : Keyboard) (set_all_keys : SetAllKeys) :
    Option (Keyboard × List Nat × Except NotEnoughSpaceInTheCommandQueue Unit) :=
  addOne kb none (Command.scancode_set_3_set_all_keys set_all_keys)

/-- Keyboard::scancode_set_3_set_key_type. -/
def scancode_set_3_set_key_type (kb : Keyboard) (set_key_type : SetKeyType)
    (scancode : Nat) :
    Option (Keyboard × List Nat × Except NotEnoughSpaceInTheCommandQueue Unit) :=
  addOne kb none (Command.scancode_set_3_set_key_type set_key_type scancode)

/-- Keyboard::set_typematic_rate. -/
def set_typematic_rate (kb : Keyboard) (delay : DelayMilliseconds)
    (rate : RateValue) :
    Option (Keyboard × List Nat × Except NotEnoughSpaceInTheCommandQueue Unit) :=
  addOne kb none (Command.set_typematic_rate delay rate)

/-- Keyboard::read_id. -/
def read_id (kb : Keyboard) :
    Option (Keyboard × List Nat × Except NotEnoughSpaceInTheCommandQueue Unit) :=
  addOne kb none Command.read_id

/-- Keyboard::echo. -/
def echo (kb : Keyboard) :
    Option (Keyboard × List Nat × Except NotEnoughSpaceInTheCommandQueue Unit) :=
  addOne kb none Command.echo

/-- Keyboard::set_alternate_scancode_set: a two-command sequence guarded by
a single space_available(2) check, each add unwrapped. -/
def set_alternate_scancode_set (kb : Keyboard)
    (scancode_setting : KeyboardScancodeSetting) :
    Option (Keyboard × List Nat × Except NotEnoughSpaceInTheCommandQueue Unit) :=
  if kb.commands.space_available 2 then
    let (q1, sent1, r1) := kb.commands.add (Command.set_alternate_scancodes scancode_setting)
    match r1 with
    | .error _ => none
    | .ok () =>
      let (q2, sent2, r2) := q1.add Command.get_current_scancode_set
      match r2 with
      | .error _ => none
      | .ok () => some ({ kb with commands := q2 }, sent1 ++ sent2, .ok ())
  else
    some (kb, [], .error ⟨⟩)

end Keyboard

/-! ## Controller protocol state machine (src/controller/driver.rs, src/controller/raw.rs)

Modelled from the spec: the port-I/O capability and the 8042 controller
hardware behind it are external collaborators (spec sections 2 and 6 - a
capability that performs single byte reads/writes to the data, status and
command ports, supplied by the host environment).  They are modelled as an
idealized hardware double: the controller consumes written bytes instantly
(the input-buffer-full status bit is never set, so the busy-wait loops of
the driver exit after one status read), and a command that returns a value
places its response byte in the output buffer immediately.  Test commands
answer from the oracle fields keyboardTestResult / auxTestResult /
selfTestResult.  Following spec section 4.2 (a full self-test can reset
internal controller state), the SELF_TEST command resets the stored
controller command byte to the selfTestResetValue field while responding
with selfTestResult.  All port writes are recorded in append-only traces. -/

namespace RawCommands

def READ_CONTROLLER_COMMAND_BYTE : Nat := 0x20

def READ_RAM_START : Nat := 0x21

def WRITE_CONTROLLER_COMMAND_BYTE : Nat := 0x60

def WRITE_RAM_START : Nat := 0x61

def DISABLE_AUXILIARY_DEVICE_INTERFACE : Nat := 0xA7

def ENABLE_AUXILIARY_DEVICE_INTERFACE : Nat := 0xA8

def AUXILIARY_DEVICE_INTERFACE_TEST : Nat := 0xA9

def SELF_TEST : Nat := 0xAA

def KEYBOARD_INTERFACE_TEST : Nat := 0xAB

def DISABLE_KEYBOARD_INTERFACE : Nat := 0xAD

def ENABLE_KEYBOARD_INTERFACE : Nat := 0xAE

def WRITE_TO_AUXILIARY_DEVICE : Nat := 0xD4

end RawCommands

namespace ControllerCommandByte

def KEYBOARD_TRANSLATE_MODE : Nat := 0b01000000

def DISABLE_AUXILIARY_DEVICE : Nat := 0b00100000

def DISABLE_KEYBOARD : Nat := 0b00010000

def SYSTEM_FLAG : Nat := 0b00000100

def ENABLE_AUXILIARY_INTERRUPT : Nat := 0b00000010

def ENABLE_KEYBOARD_INTERRUPT : Nat := 0b00000001

/-- Mask of the declared ControllerCommandByte flag bits, for
from_bits_truncate. -/
def allBits : Nat := 0b01110111

def from_bits_truncate (raw : Nat) : Nat := raw &&& allBits

end ControllerCommandByte

/-- Idealized 8042 hardware double; see the section comment above. -/
structure Hardware where
  commandByte : Nat
  output : Option (DataOwner × Nat)
  pendingDataCommand : Option Nat
  keyboardInterfaceEnabled : Bool
  auxiliaryInterfaceEnabled : Bool
  keyboardTestResult : Nat
  auxTestResult : Nat
  selfTestResult : Nat
  selfTestResetValue : Nat
  commandWrites : List Nat
  dataWrites : List Nat
  keyboardSends : List Nat
  auxiliaryDeviceSends : List Nat
deriving DecidableEq

namespace Hardware

/-- Raw status byte the hardware presents: output-buffer bits according to
the output buffer owner; the input buffer is never full in the idealized
double. -/
def statusByte (h : Hardware) : Nat :=
  match h.output with
  | some (DataOwner.AuxiliaryDevice, _) =>
    StatusRegister.AUXILIARY_DEVICE_OUTPUT_BUFFER_FULL |||
    StatusRegister.OUTPUT_BUFFER_FULL
  | some (DataOwner.KeyboardOrCommandController, _) =>
    StatusRegister.OUTPUT_BUFFER_FULL
  | none => 0

/-- ReadStatus::status followed by StatusInfo::data_availability, the form
in which every driver function consumes the status register. -/
def data_availability (h : Hardware) : Option DataOwner :=
  StatusInfo.data_availability (StatusRegister.from_bits_truncate h.statusByte)

/-- Write to port 0x64 (the command register): the hardware processes the
controller command instantly. -/
def writeCommandPort (h : Hardware) (command : Nat) : Hardware :=
  let h := { h with commandWrites := h.commandWrites ++ [command] }
  if command = RawCommands.READ_CONTROLLER_COMMAND_BYTE then
    { h with output := some (DataOwner.KeyboardOrCommandController, h.commandByte) }
  else if command = RawCommands.WRITE_CONTROLLER_COMMAND_BYTE then
    { h with pendingDataCommand := some command }
  else if command = RawCommands.SELF_TEST then
    { h with commandByte := h.selfTestResetValue,
             output := some (DataOwner.KeyboardOrCommandController, h.selfTestResult) }
  else if command = RawCommands.KEYBOARD_INTERFACE_TEST then
    { h with output := some (DataOwner.KeyboardOrCommandController, h.keyboardTestResult) }
  else if command = RawCommands.AUXILIARY_DEVICE_INTERFACE_TEST then
    { h with output := some (DataOwner.KeyboardOrCommandController, h.auxTestResult) }
  else if command = RawCommands.DISABLE_KEYBOARD_INTERFACE then
    { h with keyboardInterfaceEnabled := false }
  else if command = RawCommands.ENABLE_KEYBOARD_INTERFACE then
    { h with keyboardInterfaceEnabled := true }
  else if command = RawCommands.DISABLE_AUXILIARY_DEVICE_INTERFACE then
    { h with auxiliaryInterfaceEnabled := false }
  else if command = RawCommands.ENABLE_AUXILIARY_DEVICE_INTERFACE then
    { h with auxiliaryInterfaceEnabled := true }
  else if command = RawCommands.WRITE_TO_AUXILIARY_DEVICE then
    { h with pendingDataCommand := some command }
  else
    h

/-- Write to port 0x60 (the data port): routed according to whichever
two-byte controller command is pending, or straight to the keyboard. -/
def writeDataPort (h : Hardware) (data : Nat) : Hardware :=
  let h' := { h with dataWrites := h.dataWrites ++ [data], pendingDataCommand := none }
  match h.pendingDataCommand with
  | some c =>
    if c = RawCommands.WRITE_CONTROLLER_COMMAND_BYTE then
      { h' with commandByte := data }
    else if c = RawCommands.WRITE_TO_AUXILIARY_DEVICE then
      { h' with auxiliaryDeviceSends := h.auxiliaryDeviceSends ++ [data] }
    else
      h'
  | none =>
    { h' with keyboardSends := h.keyboardSends ++ [data] }

/-- Read from port 0x60 (the data port): consumes the output buffer.  The
driver only reads after checking data availability, so the none branch is
dead in every embedded call. -/
def readDataPort (h : Hardware) : Hardware × Nat :=
  match h.output with
  | some (_, data) => ({ h with output := none }, data)
  | none => (h, 0)

end Hardware

/-- send_controller_command: busy-wait for input-buffer-empty (immediate in
the idealized double), then write the command to the command register. -/
def send_controller_command (h : Hardware) (command : Nat) : Hardware :=
  h.writeCommandPort command

/-- send_controller_command_and_write_data. -/
def send_controller_command_and_write_data (h : Hardware) (command data : Nat) :
    Hardware :=
  (send_controller_command h command).writeDataPort data

/-- write_controller_command_byte. -/
def write_controller_command_byte (h : Hardware) (data : Nat) : Hardware :=
  send_controller_command_and_write_data h
    RawCommands.WRITE_CONTROLLER_COMMAND_BYTE (data &&& 0xFF)

/-- send_controller_command_and_wait_response: discard a stale byte if one
is available, send the command, then spin until the controller (not the
auxiliary device) reports data and read it.  In the idealized double the
response is available right after the command register write. -/
def send_controller_command_and_wait_response (h : Hardware) (command : Nat) :
    Hardware × Nat :=
  let h :=
    if h.data_availability.isSome then (h.readDataPort).1 else h
  let h := send_controller_command h command
  match h.data_availability with
  | some DataOwner.KeyboardOrCommandController => h.readDataPort
  | _ => (h, 0)

/-- ReadRAM::controller_command_byte. -/
def controller_command_byte (h : Hardware) : Hardware × Nat :=
  let (h, raw) :=
    send_controller_command_and_wait_response h RawCommands.READ_CONTROLLER_COMMAND_BYTE
  (h, ControllerCommandByte.from_bits_truncate raw)

/-- Testing::self_test: issues SELF_TEST and checks for 0x55; note that the
source neither saves nor restores the controller command byte around the
test. -/
def self_test (h : Hardware) : Hardware × Except Nat Unit :=
  let (h, result) := send_controller_command_and_wait_response h RawCommands.SELF_TEST
  if result = 0x55 then (h, .ok ()) else (h, .error result)

inductive DeviceInterfaceError
  | ClockLineLow
  | ClockLineHigh
  | DataLineLow
  | DataLineHigh
  | UnknownValue (value : Nat)
deriving DecidableEq

inductive InterfaceError
  | Keyboard (e : DeviceInterfaceError)
  | AuxiliaryDevice (e : DeviceInterfaceError)
deriving DecidableEq

namespace DeviceInterfaceError

/-- DeviceInterfaceError::from_test_result. -/
def from_test_result (value : Nat) : Except DeviceInterfaceError Unit :=
  if value = 0 then .ok ()
  else if value = 1 then .error .ClockLineLow
  else if value = 2 then .error .ClockLineHigh
  else if value = 3 then .error .DataLineLow
  else if value = 4 then .error .DataLineHigh
  else .error (.UnknownValue value)

end DeviceInterfaceError

/-- Testing::keyboard_interface_test. -/
def keyboard_interface_test (h : Hardware) :
    Hardware × Except DeviceInterfaceError Unit :=
  let (h, test_result) :=
    send_controller_command_and_wait_response h RawCommands.KEYBOARD_INTERFACE_TEST
  (h, DeviceInterfaceError.from_test_result test_result)

/-- Testing::auxiliary_device_interface_test. -/
def auxiliary_device_interface_test (h : Hardware) :
    Hardware × Except DeviceInterfaceError Unit :=
  let (h, test_result) :=
    send_controller_command_and_wait_response h RawCommands.AUXILIARY_DEVICE_INTERFACE_TEST
  (h, DeviceInterfaceError.from_test_result test_result)

/-- DevicesDisabled::test_keyboard_and_auxiliary_device: runs both tests
(Result::and evaluates its argument eagerly, so the auxiliary test runs
even when the keyboard test already failed) and reports the keyboard error
first. -/
def test_keyboard_and_auxiliary_device (h : Hardware) :
    Hardware × Except InterfaceError Unit :=
  let (h, kr) := keyboard_interface_test h
  let (h, ar) := auxiliary_device_interface_test h
  match kr with
  | .error e => (h, .error (.Keyboard e))
  | .ok () =>
    match ar with
    | .error e => (h, .error (.AuxiliaryDevice e))
    | .ok () => (h, .ok ())

inductive EnableDevice
  | Keyboard
  | AuxiliaryDevice
  | KeyboardAndAuxiliaryDevice
deriving DecidableEq

/-- DangerousDeviceCommands::dangerous_enable_keyboard_interface. -/
def dangerous_enable_keyboard_interface (h : Hardware) : Hardware :=
  send_controller_command h RawCommands.ENABLE_KEYBOARD_INTERFACE

/-- DangerousDeviceCommands::dangerous_enable_auxiliary_device. -/
def dangerous_enable_auxiliary_device (h : Hardware) : Hardware :=
  send_controller_command h RawCommands.ENABLE_AUXILIARY_DEVICE_INTERFACE

/-- Embedding of bitflags set(flag, true). -/
def setFlag (bits flag : Nat) : Nat := bits ||| flag

/-- DevicesDisabled::configure: enable the selected interface line(s), then
when interrupts are requested, read-modify-write the controller command
byte with the matching interrupt-enable bit(s). -/
def configure (h : Hardware) (devices : EnableDevice) (interrupts : Bool) :
    Hardware :=
  let h :=
    match devices with
    | .Keyboard => dangerous_enable_keyboard_interface h
    | .AuxiliaryDevice => dangerous_enable_auxiliary_device h
    | .KeyboardAndAuxiliaryDevice =>
      dangerous_enable_auxiliary_device (dangerous_enable_keyboard_interface h)
  if interrupts then
    let (h, cb) := controller_command_byte h
    let cb :=
      match devices with
      | .Keyboard => setFlag cb ControllerCommandByte.ENABLE_KEYBOARD_INTERRUPT
      | .AuxiliaryDevice => setFlag cb ControllerCommandByte.ENABLE_AUXILIARY_INTERRUPT
      | .KeyboardAndAuxiliaryDevice =>
        setFlag (setFlag cb ControllerCommandByte.ENABLE_KEYBOARD_INTERRUPT)
          ControllerCommandByte.ENABLE_AUXILIARY_INTERRUPT
    write_controller_command_byte h cb
  else
    h

/-- DevicesDisabled::enable_keyboard. -/
def enable_keyboard (h : Hardware) :
    Except (Hardware × DeviceInterfaceError) Hardware :=
  match keyboard_interface_test h with
  | (h, .ok ()) => .ok (configure h .Keyboard false)
  | (h, .error e) => .error (h, e)

/-- DevicesDisabled::enable_auxiliary_device. -/
def enable_auxiliary_device (h : Hardware) :
    Except (Hardware × DeviceInterfaceError) Hardware :=
  match auxiliary_device_interface_test h with
  | (h, .ok ()) => .ok (configure h .AuxiliaryDevice false)
  | (h, .error e) => .error (h, e)

/-- DevicesDisabled::enable_keyboard_and_auxiliary_device. -/
def enable_keyboard_and_auxiliary_device (h : Hardware) :
    Except (Hardware × InterfaceError) Hardware :=
  match test_keyboard_and_auxiliary_device h with
  | (h, .ok ()) => .ok (configure h .KeyboardAndAuxiliaryDevice false)
  | (h, .error e) => .error (h, e)

/-- DevicesDisabled::enable_keyboard_and_interrupts. -/
def enable_keyboard_and_interrupts (h : Hardware) :
    Except (Hardware × DeviceInterfaceError) Hardware :=
  match keyboard_interface_test h with
  | (h, .ok ()) => .ok (configure h .Keyboard true)
  | (h, .error e) => .error (h, e)

/-- DevicesDisabled::enable_auxiliary_device_and_interrupts. -/
def enable_auxiliary_device_and_interrupts (h : Hardware) :
    Except (Hardware × DeviceInterfaceError) Hardware :=
  match auxiliary_device_interface_test h with
  | (h, .ok ()) => .ok (configure h .AuxiliaryDevice true)
  | (h, .error e) => .error (h, e)

/-- DevicesDisabled::enable_keyboard_and_auxiliary_device_and_interrupts. -/
def enable_keyboard_and_auxiliary_device_and_interrupts (h : Hardware) :
    Except (Hardware × InterfaceError) Hardware :=
  match test_keyboard_and_auxiliary_device h with
  | (h, .ok ()) => .ok (configure h .KeyboardAndAuxiliaryDevice true)
  | (h, .error e) => .error (h, e)

/-! ## Runtime device I/O of the enabled state

In the source the send operations are trait methods and the gating is
type-level, through the trait impls on EnabledDevices type parameters:
KeyboardIO is implemented only when D1 = KeyboardEnabled and
AuxiliaryDeviceIO only when D2 = AuxiliaryDeviceEnabled.  The type
parameters are reflected as booleans and the impl constraints as
availability predicates over them. -/

/-- The type parameters (D1, D2, IRQ) of EnabledDevices, as data: whether
D1 = KeyboardEnabled, whether D2 = AuxiliaryDeviceEnabled, whether
IRQ = InterruptsEnabled. -/
structure EnabledDevicesTypeParams where
  keyboardEnabled : Bool
  auxiliaryDeviceEnabled : Bool
  interruptsEnabled : Bool
deriving DecidableEq

/-- The return type of enable_keyboard is
EnabledDevices of KeyboardEnabled, Disabled, Disabled. -/
def enableKeyboardTypeParams : EnabledDevicesTypeParams := ⟨true, false, false⟩

/-- The impl of KeyboardIO exists exactly when D1 = KeyboardEnabled. -/
def keyboardSendAvailable (t : EnabledDevicesTypeParams) : Bool :=
  t.keyboardEnabled

/-- The impl of AuxiliaryDeviceIO exists exactly when
D2 = AuxiliaryDeviceEnabled. -/
def auxiliaryDeviceSendAvailable (t : EnabledDevicesTypeParams) : Bool :=
  t.auxiliaryDeviceEnabled

/-- KeyboardIO::send_to_keyboard: a plain unit-returning write of the byte
to the data port. -/
def send_to_keyboard (h : Hardware) (data : Nat) : Hardware :=
  h.writeDataPort data

/-- AuxiliaryDeviceIO::send_to_auxiliary_device: a unit-returning
WRITE_TO_AUXILIARY_DEVICE command followed by the data byte. -/
def send_to_auxiliary_device (h : Hardware) (data : Nat) : Hardware :=
  send_controller_command_and_write_data h RawCommands.WRITE_TO_AUXILIARY_DEVICE data

/-! ## Reachability of command-queue states -/

/-- Queue states reachable from CommandQueue::new by any sequence of add and
receive_data calls. -/
inductive Reachable : CommandQueue → Prop
  | new (cap : Nat) : Reachable (CommandQueue.new cap)
  | add (q : CommandQueue) (c : Command) : Reachable q → Reachable (q.add c).1
  | receive (q : CommandQueue) (b : Nat) : Reachable q → Reachable (q.receive_data b).1

/-- Number of in-flight commands held by the checker of a queue. -/
def inflightCount (q : CommandQueue) : Nat :=
  match q.command_checker.current_command with
  | some _ => 1
  | none => 0

/-- Sub-states that await a confirmation byte, together with the byte the
checker re-sends to the device when a RESEND arrives there: the original
command byte at a first (or only) confirmation stage, the payload data byte
at a second-stage wait. -/
def ackWaitingResendByte : Command → Option Nat
  | .Echo command => some command
  | .AckResponse command => some command
  | .AckResponseWithReturnTwoBytes command _ _ .WaitAck => some command
  | .AckResponseWithReturnTwoBytes _ _ _ _ => none
  | .SendCommandAndData command _ .WaitAck1 => some command
  | .SendCommandAndData _ data .WaitAck2 => some data
  | .SendCommandAndDataSingleAck command _ _ .WaitAck1 => some command
  | .SendCommandAndDataSingleAck _ data _ .WaitAck2 => some data
  | .SendCommandAndDataAndReceiveResponse command _ _ .WaitAck1 => some command
  | .SendCommandAndDataAndReceiveResponse _ data _ .WaitAck2 => some data
  | .SendCommandAndDataAndReceiveResponse _ _ _ .WaitResponse => none

/-- Sub-states whose expected confirmation byte is ACK (the Echo variant
waits for the echoed 0xEE sentinel instead, and the second stage of
SendCommandAndDataSingleAck treats any non-RESEND byte as a leftover
scancode, so neither is an ACK-waiting state). -/
def waitingForAck : Command → Bool
  | .AckResponse _ => true
  | .AckResponseWithReturnTwoBytes _ _ _ .WaitAck => true
  | .SendCommandAndData _ _ _ => true
  | .SendCommandAndDataSingleAck _ _ _ .WaitAck1 => true
  | .SendCommandAndDataAndReceiveResponse _ _ _ .WaitAck1 => true
  | _ => false

/-- Whether a command is the SendCommandAndDataAndReceiveResponse variant. -/
def isSendCommandAndDataAndReceiveResponse : Command → Bool
  | .SendCommandAndDataAndReceiveResponse _ _ _ _ => true
  | _ => false

/-- Existence of a successfully enqueued result for a session method. -/
def issuesOk
    (r : Option (Keyboard × List Nat × Except NotEnoughSpaceInTheCommandQueue Unit)) :
    Prop :=
  ∃ kb2 sent, r = some (kb2, sent, .ok ())

/-! ## Theorems -/

/-- Claim C1 (counterexample): for the status byte 0x20 (bit 5 set, bit 0
clear) data_availability returns None, not Some(AuxiliaryDevice): the first
branch of the source tests contains of the UNION of both output-buffer
flags, which requires bit 0 as well. -/
theorem data_availability_bit5_alone_counterexample :
    StatusInfo.data_availability 0x20 = none ∧
    StatusInfo.data_availability 0x20 ≠ some DataOwner.AuxiliaryDevice := by
  decide

/-- Claim C1 (amended): data_availability reports the auxiliary device
exactly when both bit 5 and bit 0 are set; with bit 0 clear it reports no
data at all (regardless of bit 5); with bit 0 set and bit 5 clear it
reports the keyboard/controller; and for no byte does it report both
owners. -/
theorem data_availability_owner_characterization :
    ∀ register < 256,
      (register.testBit 0 = true → register.testBit 5 = true →
        StatusInfo.data_availability register = some DataOwner.AuxiliaryDevice) ∧
      (register.testBit 0 = false →
        StatusInfo.data_availability register = none) ∧
      (register.testBit 0 = true → register.testBit 5 = false →
        StatusInfo.data_availability register =
          some DataOwner.KeyboardOrCommandController) ∧
      ¬(StatusInfo.data_availability register = some DataOwner.AuxiliaryDevice ∧
        StatusInfo.data_availability register =
          some DataOwner.KeyboardOrCommandController) := by
  decide

/-- Witness for the amended C1 theorem at the concrete byte 0x21. -/
theorem data_availability_owner_characterization_witness :
    StatusInfo.data_availability 0x21 = some DataOwner.AuxiliaryDevice :=
  (data_availability_owner_characterization 0x21 (by decide)).1 (by decide) (by decide)

/-- Claim C2 (code evaluated at the failing input): with the controller
command byte 0x45 and a hardware whose self-test succeeds (responds 0x55)
and resets internal controller state (here: command byte reset to 0, as
spec section 4.2 warns), Testing::self_test returns Ok but the command byte
read back afterwards is 0, not 0x45 - the source issues only the SELF_TEST
command and never saves or restores the command byte. -/
theorem self_test_loses_command_byte :
    (self_test
      { commandByte := 0x45, output := none, pendingDataCommand := none,
        keyboardInterfaceEnabled := false, auxiliaryInterfaceEnabled := false,
        keyboardTestResult := 0, auxTestResult := 0, selfTestResult := 0x55,
        selfTestResetValue := 0, commandWrites := [], dataWrites := [],
        keyboardSends := [], auxiliaryDeviceSends := [] }).2 = Except.ok () ∧
    (controller_command_byte
      (self_test
        { commandByte := 0x45, output := none, pendingDataCommand := none,
          keyboardInterfaceEnabled := false, auxiliaryInterfaceEnabled := false,
          keyboardTestResult := 0, auxTestResult := 0, selfTestResult := 0x55,
          selfTestResetValue := 0, commandWrites := [], dataWrites := [],
          keyboardSends := [], auxiliaryDeviceSends := [] }).1).2 = 0 ∧
    (0 : Nat) ≠ 0x45 := by
  refine ⟨rfl, rfl, by decide⟩

/-- Claim C5: at every sub-state that awaits a confirmation byte, a RESEND
byte makes the checker write exactly the re-send byte of that stage (the
original command byte at a first confirmation stage, the payload data byte
at a second stage) to the device again, leaves the in-flight command - and
with it the sub-state cursor - exactly as it was, and the command remains
in flight (the call reports either nothing or CommandInProgress, never a
completion). -/
theorem resend_repeats_command_and_keeps_substate :
    ∀ (c : Command) (r : Nat), ackWaitingResendByte c = some r →
      ((⟨some c⟩ : CommandChecker).receive_data FromKeyboard.RESEND).1 = ⟨some c⟩ ∧
      ((⟨some c⟩ : CommandChecker).receive_data FromKeyboard.RESEND).2.1 = [r] ∧
      (((⟨some c⟩ : CommandChecker).receive_data FromKeyboard.RESEND).2.2 = none ∨
       ((⟨some c⟩ : CommandChecker).receive_data FromKeyboard.RESEND).2.2 =
         some Status.CommandInProgress) := by
  intro c r hc
  rcases c with command | command | ⟨command, byte1, byte2, st⟩ | ⟨command, data, st⟩ |
    ⟨command, data, sc, st⟩ | ⟨command, data, response, st⟩
  all_goals try cases st
  all_goals
    simp_all [ackWaitingResendByte, CommandChecker.receive_data,
      CommandChecker.send_new_command, Command.commandByte,
      FromKeyboard.RESEND, FromKeyboard.ECHO, FromKeyboard.ACK]

/-- Witness for the C5 theorem: RESEND while an AckResponse command 0xF4 is
in flight re-sends 0xF4 and keeps the command in flight. -/
theorem resend_repeats_command_and_keeps_substate_witness :
    ((⟨some (Command.AckResponse 0xF4)⟩ : CommandChecker).receive_data
      FromKeyboard.RESEND).2.1 = [0xF4] :=
  (resend_repeats_command_and_keeps_substate (Command.AckResponse 0xF4) 0xF4 rfl).2.1

/-- Claim C7 (counterexample): a byte that is neither ACK nor RESEND (here
0x42) arriving while get_current_scancode_set-style command 0xF0 waits for
its SECOND ack is answered with CommandInProgress, not with
UnexpectedData(0x42): the second-ack arm of
SendCommandAndDataAndReceiveResponse silently ignores such bytes. -/
theorem unexpected_byte_second_ack_swallowed_counterexample :
    ((⟨some (Command.SendCommandAndDataAndReceiveResponse 0xF0 0 0 .WaitAck2)⟩ :
        CommandChecker).receive_data 0x42).2.2 = some Status.CommandInProgress ∧
    ((⟨some (Command.SendCommandAndDataAndReceiveResponse 0xF0 0 0 .WaitAck2)⟩ :
        CommandChecker).receive_data 0x42).2.2 ≠
      some (Status.UnexpectedData 0x42) := by
  decide

/-- Claim C7 (amended): at every ACK-waiting sub-state except the second
ack stage of SendCommandAndDataAndReceiveResponse, a byte that is neither
ACK nor RESEND yields UnexpectedData carrying that byte, with the command
left in flight, its sub-state unchanged, and nothing written to the device;
at the second ack stage of SendCommandAndDataAndReceiveResponse such a byte
is silently swallowed as CommandInProgress instead; and whenever the
command protocol reports UnexpectedData the keyboard session forwards the
carried byte to the scancode decoder. -/
theorem unexpected_byte_reported_and_forwarded :
    (∀ (c : Command) (b : Nat), waitingForAck c = true →
      b ≠ FromKeyboard.ACK → b ≠ FromKeyboard.RESEND →
      isSendCommandAndDataAndReceiveResponse c = false →
      (⟨some c⟩ : CommandChecker).receive_data b =
        (⟨some c⟩, [], some (Status.UnexpectedData b))) ∧
    (∀ (command data response b : Nat),
      b ≠ FromKeyboard.ACK → b ≠ FromKeyboard.RESEND →
      (⟨some (Command.SendCommandAndDataAndReceiveResponse command data response
          .WaitAck1)⟩ : CommandChecker).receive_data b =
        (⟨some (Command.SendCommandAndDataAndReceiveResponse command data response
          .WaitAck1)⟩, [], some (Status.UnexpectedData b)) ∧
      (⟨some (Command.SendCommandAndDataAndReceiveResponse command data response
          .WaitAck2)⟩ : CommandChecker).receive_data b =
        (⟨some (Command.SendCommandAndDataAndReceiveResponse command data response
          .WaitAck2)⟩, [], some Status.CommandInProgress)) ∧
    (∀ (oracle : DecodeOracle) (kb : Keyboard) (b d : Nat),
      b ≠ FromKeyboard.KEY_DETECTION_OVERRUN_SCANCODE_SET_1 →
      b ≠ FromKeyboard.KEY_DETECTION_OVERRUN_SCANCODE_SET_2_AND_3 →
      b ≠ FromKeyboard.BAT_FAILURE_CODE →
      b ≠ FromKeyboard.BAT_COMPLETION_CODE →
      kb.commands.empty = false →
      (kb.commands.receive_data b).2.2 = some (Status.UnexpectedData d) →
      (Keyboard.receive_data oracle kb b).1.scancode_reader =
        ⟨kb.scancode_reader.setting, kb.scancode_reader.fed ++ [d]⟩) := by
  refine ⟨?_, ?_, ?_⟩
  · intro c b hw hA hR hno
    rcases c with command | command | ⟨command, byte1, byte2, st⟩ | ⟨command, data, st⟩ |
      ⟨command, data, sc, st⟩ | ⟨command, data, response, st⟩
    all_goals try cases st
    all_goals
      simp_all [waitingForAck, isSendCommandAndDataAndReceiveResponse,
        CommandChecker.receive_data,
        CommandChecker.send_new_command, Command.commandByte,
        FromKeyboard.RESEND, FromKeyboard.ECHO, FromKeyboard.ACK]
  · intro command data response b hA hR
    constructor <;>
      simp_all [CommandChecker.receive_data, FromKeyboard.RESEND, FromKeyboard.ACK]
  · intro oracle kb b d h1 h2 h3 h4 hemp hun
    rcases hq : kb.commands.receive_data b with ⟨q, sent, st⟩
    rw [hq] at hun
    simp only at hun
    subst hun
    simp [Keyboard.receive_data, h1, h2, h3, h4, hemp, hq, ScancodeDecoder.decode]

/-- Witness for the amended C7 theorem: the non-ACK, non-RESEND byte 0x42
during an in-flight AckResponse command 0xF4 is reported as
UnexpectedData(0x42) with the command still in flight. -/
theorem unexpected_byte_reported_and_forwarded_witness :
    ((⟨some (Command.AckResponse 0xF4)⟩ : CommandChecker).receive_data 0x42) =
      (⟨some (Command.AckResponse 0xF4)⟩, [], some (Status.UnexpectedData 0x42)) :=
  unexpected_byte_reported_and_forwarded.1 (Command.AckResponse 0xF4) 0x42
    rfl (by decide) (by decide) rfl

/-- A CommandChecker is determined by its single field. -/
lemma CommandChecker.eq_of_current (ch : CommandChecker) {o : Option Command}
    (h : ch.current_command = o) : ch = ⟨o⟩ :=
  congrArg CommandChecker.mk h

/-- Feeding a byte to an idle checker does nothing and reports nothing. -/
lemma CommandChecker.receive_data_no_command (b : Nat) :
    (⟨none⟩ : CommandChecker).receive_data b = (⟨none⟩, [], none) := rfl

/-- Feeding a byte to a busy checker either finishes the command or leaves
a command in flight. -/
lemma CommandChecker.receive_data_shape (c : Command) (b : Nat) :
    (∃ c2, ((⟨some c⟩ : CommandChecker).receive_data b).2.2 =
      some (Status.CommandFinished c2)) ∨
    ((⟨some c⟩ : CommandChecker).receive_data b).1.current_command.isSome = true := by
  rcases c with command | command | ⟨command, byte1, byte2, st⟩ | ⟨command, data, st⟩ |
    ⟨command, data, sc, st⟩ | ⟨command, data, response, st⟩
  all_goals try cases st
  all_goals
    simp only [CommandChecker.receive_data, CommandChecker.send_new_command]
  all_goals first
  | (split_ifs <;> simp)
  | simp

/-- CommandQueue::add with a command in flight: the new command is only
queued (or rejected); nothing is sent. -/
lemma CommandQueue.add_inflight (q : CommandQueue) (c x : Command)
    (h : q.command_checker.current_command = some x) :
    (q.commands.length < q.cap →
      q.add c = (⟨q.cap, q.commands ++ [c], q.command_checker⟩, [], .ok ())) ∧
    (¬ q.commands.length < q.cap →
      q.add c = (⟨q.cap, q.commands, q.command_checker⟩, [], .error c)) := by
  constructor <;> intro hl <;> unfold CommandQueue.add <;> rw [h] <;> simp [hl]

/-- CommandQueue::add on an idle, empty queue: the command is started at
once when there is capacity, rejected when the capacity is zero. -/
lemma CommandQueue.add_idle_empty (q : CommandQueue) (c : Command)
    (h : q.command_checker.current_command = none) (he : q.commands = []) :
    (0 < q.cap → q.add c = (⟨q.cap, [], ⟨some c⟩⟩, [c.commandByte], .ok ())) ∧
    (q.cap = 0 → q.add c = (⟨q.cap, [], q.command_checker⟩, [], .error c)) := by
  constructor <;> intro hl <;> unfold CommandQueue.add <;> rw [h, he] <;>
    simp [hl, CommandChecker.send_new_command]

/-- CommandQueue::receive_data with an idle checker does nothing. -/
lemma CommandQueue.receive_data_idle (q : CommandQueue) (b : Nat)
    (h : q.command_checker.current_command = none) :
    q.receive_data b = (⟨q.cap, q.commands, ⟨none⟩⟩, [], none) := by
  have hch : q.command_checker = ⟨none⟩ := CommandChecker.eq_of_current _ h
  unfold CommandQueue.receive_data
  rw [hch]
  rfl

/-- Invariant of every reachable queue state: whenever the pending FIFO is
non-empty a command is in flight, and the FIFO never exceeds capacity. -/
lemma reachable_invariant (q : CommandQueue) (h : Reachable q) :
    (q.commands ≠ [] → q.command_checker.current_command.isSome = true) ∧
    q.commands.length ≤ q.cap := by
  induction h with
  | new cap => simp [CommandQueue.new, CommandChecker.new]
  | add q c hq ih =>
    obtain ⟨ih1, ih2⟩ := ih
    cases hcc : q.command_checker.current_command with
    | some x =>
      by_cases hl : q.commands.length < q.cap
      · rw [(CommandQueue.add_inflight q c x hcc).1 hl]
        refine ⟨fun _ => by simp [hcc], by simpa using hl⟩
      · rw [(CommandQueue.add_inflight q c x hcc).2 hl]
        exact ⟨ih1, ih2⟩
    | none =>
      have he : q.commands = [] := by
        by_contra hne
        have := ih1 hne
        rw [hcc] at this
        simp at this
      by_cases hl : 0 < q.cap
      · rw [(CommandQueue.add_idle_empty q c hcc he).1 hl]
        simp
      · have hz : q.cap = 0 := by omega
        rw [(CommandQueue.add_idle_empty q c hcc he).2 hz]
        simp
  | receive q b hq ih =>
    obtain ⟨ih1, ih2⟩ := ih
    cases hcc : q.command_checker.current_command with
    | none =>
      rw [CommandQueue.receive_data_idle q b hcc]
      refine ⟨fun hne => ?_, ih2⟩
      have := ih1 hne
      rw [hcc] at this
      simp at this
    | some x =>
      have hch : q.command_checker = ⟨some x⟩ := CommandChecker.eq_of_current _ hcc
      rcases hr : (⟨some x⟩ : CommandChecker).receive_data b with ⟨ch, sent, result⟩
      have hshape := CommandChecker.receive_data_shape x b
      rw [hr] at hshape
      simp only at hshape
      rcases result with _ | st
      · simp only [CommandQueue.receive_data, hch, hr]
        refine ⟨fun hne => ?_, ih2⟩
        rcases hshape with ⟨c2, hc2⟩ | hsome
        · exact absurd hc2 (by simp)
        · exact hsome
      · cases st with
        | UnexpectedData d =>
          simp only [CommandQueue.receive_data, hch, hr]
          refine ⟨fun hne => ?_, ih2⟩
          rcases hshape with ⟨c2, hc2⟩ | hsome
          · exact absurd hc2 (by simp)
          · exact hsome
        | CommandInProgress =>
          simp only [CommandQueue.receive_data, hch, hr]
          refine ⟨fun hne => ?_, ih2⟩
          rcases hshape with ⟨c2, hc2⟩ | hsome
          · exact absurd hc2 (by simp)
          · exact hsome
        | CommandFinished c2 =>
          cases hcs : q.commands with
          | nil =>
            simp only [CommandQueue.receive_data, hch, hr, hcs]
            simp
          | cons c3 rest =>
            simp only [CommandQueue.receive_data, hch, hr, hcs,
              CommandChecker.send_new_command]
            refine ⟨fun _ => rfl, ?_⟩
            have hlen := ih2
            rw [hcs] at hlen
            simp at hlen ⊢
            omega

/-- Claim C3: in every CommandQueue state reachable from new() by add and
receive_data calls, at most one command is in flight (the checker holds an
Option), whenever the pending FIFO is non-empty a command is in flight,
adding while a command is awaiting a response writes nothing to the device
(no new command byte is issued), and receive_data with nothing in flight
writes nothing either. -/
theorem queue_at_most_one_inflight :
    ∀ q : CommandQueue, Reachable q →
      inflightCount q ≤ 1 ∧
      (q.commands ≠ [] → q.command_checker.current_command.isSome = true) ∧
      (∀ c, q.command_checker.current_command.isSome = true →
        (q.add c).2.1 = []) ∧
      (∀ b, q.command_checker.current_command = none →
        (q.receive_data b).2.1 = []) := by
  intro q hq
  refine ⟨?_, (reachable_invariant q hq).1, ?_, ?_⟩
  · unfold inflightCount
    cases q.command_checker.current_command <;> simp
  · intro c hsome
    obtain ⟨x, hx⟩ := Option.isSome_iff_exists.mp hsome
    by_cases hl : q.commands.length < q.cap
    · rw [(CommandQueue.add_inflight q c x hx).1 hl]
    · rw [(CommandQueue.add_inflight q c x hx).2 hl]
  · intro b hnone
    rw [CommandQueue.receive_data_idle q b hnone]

/-- Witness for the C3 theorem at the freshly created queue of capacity 4. -/
theorem queue_at_most_one_inflight_witness :
    inflightCount (CommandQueue.new 4) ≤ 1 :=
  (queue_at_most_one_inflight (CommandQueue.new 4) (Reachable.new 4)).1

/-- Claim C4: on every reachable CommandQueue state whose pending FIFO is
full, add returns the capacity error carrying the rejected command and the
whole queue value - pending FIFO and in-flight command - is unchanged (and
nothing is written to the device). -/
theorem add_on_full_queue_rejects_and_preserves :
    ∀ (q : CommandQueue) (c : Command), Reachable q →
      q.space_available 1 = false →
      q.add c = (q, [], Except.error c) := by
  intro q c hq hfull
  have hge : ¬ q.commands.length < q.cap := by
    unfold CommandQueue.space_available at hfull
    simp at hfull
    omega
  cases hcc : q.command_checker.current_command with
  | some x =>
    rw [(CommandQueue.add_inflight q c x hcc).2 hge]
  | none =>
    have he : q.commands = [] := by
      by_contra hne
      have := (reachable_invariant q hq).1 hne
      rw [hcc] at this
      simp at this
    have hz : q.cap = 0 := by
      rw [he] at hge
      simp at hge
      omega
    rw [(CommandQueue.add_idle_empty q c hcc he).2 hz, ← he]

/-- Witness for the C4 theorem: a capacity-1 queue that already started one
command and holds another pending is full; the third add is rejected with
the command handed back and the queue unchanged. -/
theorem add_on_full_queue_rejects_and_preserves_witness :
    ((((CommandQueue.new 1).add Command.echo).1.add Command.set_default).1.add
        Command.read_id) =
      ((((CommandQueue.new 1).add Command.echo).1.add Command.set_default).1, [],
        Except.error Command.read_id) :=
  add_on_full_queue_rejects_and_preserves _ Command.read_id
    (Reachable.add _ Command.set_default (Reachable.add _ Command.echo (Reachable.new 1)))
    (by decide)

/-- Claim C8: for every keyboard session state (any queue contents, any
in-flight command, any decoder state) and any external decoder behaviour,
receiving the BAT completion byte 0xAA sets the session state to enabled,
replaces the scancode decoder by a fresh scancode-set-2 decoder, writes
nothing to the device, leaves the command queue untouched and returns
Ok(Some(BATCompleted)). -/
theorem bat_completion_resets_session :
    ∀ (oracle : DecodeOracle) (kb : Keyboard),
      Keyboard.receive_data oracle kb FromKeyboard.BAT_COMPLETION_CODE =
        ({ kb with state := KState.ScancodesEnabled,
                   scancode_reader := ⟨ScancodeDecoderSetting.Set2, []⟩ },
         [], Except.ok (some KeyboardEvent.BATCompleted)) := by
  intro oracle kb
  simp [Keyboard.receive_data, ScancodeDecoder.change_decoder,
    FromKeyboard.BAT_COMPLETION_CODE, FromKeyboard.BAT_FAILURE_CODE,
    FromKeyboard.KEY_DETECTION_OVERRUN_SCANCODE_SET_1,
    FromKeyboard.KEY_DETECTION_OVERRUN_SCANCODE_SET_2_AND_3]

/-- Evaluation of the status decoder on the empty-output status byte. -/
lemma da_eval_zero :
    StatusInfo.data_availability (StatusRegister.from_bits_truncate 0) = none := by
  decide

/-- Evaluation of the status decoder on the keyboard/controller-owner
status byte. -/
lemma da_eval_obf :
    StatusInfo.data_availability
      (StatusRegister.from_bits_truncate StatusRegister.OUTPUT_BUFFER_FULL) =
      some DataOwner.KeyboardOrCommandController := by
  decide

/-- Evaluation of the status decoder on the auxiliary-owner status byte. -/
lemma da_eval_aux :
    StatusInfo.data_availability
      (StatusRegister.from_bits_truncate
        (StatusRegister.AUXILIARY_DEVICE_OUTPUT_BUFFER_FULL |||
         StatusRegister.OUTPUT_BUFFER_FULL)) =
      some DataOwner.AuxiliaryDevice := by
  decide

/-- The status-byte round trip through the C1 decoder agrees with the
owner stored in the output buffer of the hardware double. -/
lemma Hardware.data_availability_eq (h : Hardware) :
    h.data_availability = h.output.map Prod.fst := by
  unfold Hardware.data_availability Hardware.statusByte
  rcases hout : h.output with _ | ⟨o, d⟩
  · simpa using da_eval_zero
  · cases o <;> dsimp only <;> simp [da_eval_obf, da_eval_aux]

/-- Processing of the keyboard interface test command by the hardware
double. -/
lemma Hardware.writeCommandPort_keyboard_test (h : Hardware) :
    h.writeCommandPort RawCommands.KEYBOARD_INTERFACE_TEST =
      { h with
        commandWrites := h.commandWrites ++ [RawCommands.KEYBOARD_INTERFACE_TEST],
        output :=
          some (DataOwner.KeyboardOrCommandController, h.keyboardTestResult) } := rfl

/-- Processing of the auxiliary device interface test command by the
hardware double. -/
lemma Hardware.writeCommandPort_aux_test (h : Hardware) :
    h.writeCommandPort RawCommands.AUXILIARY_DEVICE_INTERFACE_TEST =
      { h with
        commandWrites :=
          h.commandWrites ++ [RawCommands.AUXILIARY_DEVICE_INTERFACE_TEST],
        output :=
          some (DataOwner.KeyboardOrCommandController, h.auxTestResult) } := rfl

/-- Evaluation of the command/response handshake for the keyboard interface
test command: the only port traffic is the 0xAB command write, the response
is the keyboard test result, and the output buffer ends empty. -/
lemma sccawr_keyboard_test (h : Hardware) :
    send_controller_command_and_wait_response h RawCommands.KEYBOARD_INTERFACE_TEST =
      ({ h with output := none,
                commandWrites :=
                  h.commandWrites ++ [RawCommands.KEYBOARD_INTERFACE_TEST] },
       h.keyboardTestResult) := by
  unfold send_controller_command_and_wait_response send_controller_command
  rcases hout : h.output with _ | ⟨o, d⟩ <;>
    [skip; cases o] <;>
    simp [Hardware.data_availability_eq, Hardware.writeCommandPort_keyboard_test,
      hout, Hardware.readDataPort]

/-- Evaluation of the handshake for the auxiliary device interface test. -/
lemma sccawr_aux_test (h : Hardware) :
    send_controller_command_and_wait_response h
        RawCommands.AUXILIARY_DEVICE_INTERFACE_TEST =
      ({ h with output := none,
                commandWrites :=
                  h.commandWrites ++ [RawCommands.AUXILIARY_DEVICE_INTERFACE_TEST] },
       h.auxTestResult) := by
  unfold send_controller_command_and_wait_response send_controller_command
  rcases hout : h.output with _ | ⟨o, d⟩ <;>
    [skip; cases o] <;>
    simp [Hardware.data_availability_eq, Hardware.writeCommandPort_aux_test,
      hout, Hardware.readDataPort]

/-- Testing::keyboard_interface_test evaluated on the hardware double. -/
lemma keyboard_interface_test_eq (h : Hardware) :
    keyboard_interface_test h =
      ({ h with output := none,
                commandWrites :=
                  h.commandWrites ++ [RawCommands.KEYBOARD_INTERFACE_TEST] },
       DeviceInterfaceError.from_test_result h.keyboardTestResult) := by
  unfold keyboard_interface_test
  rw [sccawr_keyboard_test]

/-- Testing::auxiliary_device_interface_test evaluated on the hardware
double. -/
lemma auxiliary_device_interface_test_eq (h : Hardware) :
    auxiliary_device_interface_test h =
      ({ h with output := none,
                commandWrites :=
                  h.commandWrites ++ [RawCommands.AUXILIARY_DEVICE_INTERFACE_TEST] },
       DeviceInterfaceError.from_test_result h.auxTestResult) := by
  unfold auxiliary_device_interface_test
  rw [sccawr_aux_test]

/-- DevicesDisabled::test_keyboard_and_auxiliary_device when the keyboard
test fails: the auxiliary test still runs (Result::and is eager), the
result is the keyboard error, and the port traffic is the two test
commands. -/
lemma test_keyboard_and_auxiliary_device_fail_keyboard (h : Hardware)
    (e : DeviceInterfaceError)
    (hk : DeviceInterfaceError.from_test_result h.keyboardTestResult = .error e) :
    test_keyboard_and_auxiliary_device h =
      ({ h with output := none,
                commandWrites :=
                  h.commandWrites ++
                    [RawCommands.KEYBOARD_INTERFACE_TEST,
                     RawCommands.AUXILIARY_DEVICE_INTERFACE_TEST] },
       .error (InterfaceError.Keyboard e)) := by
  unfold test_keyboard_and_auxiliary_device
  rw [keyboard_interface_test_eq]
  simp only [auxiliary_device_interface_test_eq, hk, List.append_assoc,
    List.singleton_append]

/-- DevicesDisabled::test_keyboard_and_auxiliary_device when the keyboard
test passes but the auxiliary test fails: the result is the auxiliary
error, and the port traffic is the two test commands. -/
lemma test_keyboard_and_auxiliary_device_fail_aux (h : Hardware)
    (e : DeviceInterfaceError)
    (hk : DeviceInterfaceError.from_test_result h.keyboardTestResult = .ok ())
    (ha : DeviceInterfaceError.from_test_result h.auxTestResult = .error e) :
    test_keyboard_and_auxiliary_device h =
      ({ h with output := none,
                commandWrites :=
                  h.commandWrites ++
                    [RawCommands.KEYBOARD_INTERFACE_TEST,
                     RawCommands.AUXILIARY_DEVICE_INTERFACE_TEST] },
       .error (InterfaceError.AuxiliaryDevice e)) := by
  unfold test_keyboard_and_auxiliary_device
  rw [keyboard_interface_test_eq]
  simp only [auxiliary_device_interface_test_eq, hk, ha, List.append_assoc,
    List.singleton_append]

/-- Claim C6: the byte returned by a device interface test is mapped as 0
success, 1 ClockLineLow, 2 ClockLineHigh, 3 DataLineLow, 4 DataLineHigh,
anything else UnknownValue(byte); and when the interface test of any of the
six enable_* transitions fails, the transition returns Err pairing the
typed error (wrapped as InterfaceError::Keyboard / ::AuxiliaryDevice by the
combined transitions, which report the keyboard error first) with the
DevicesDisabled handle whose hardware state carries only the test
command(s) themselves - no interface-enable command (0xAE/0xA8) and no
command-byte write (0x60) was issued, the interface-enable lines and the
stored command byte are untouched, so the handle supports every
DevicesDisabled operation as before. -/
theorem enable_transition_failure_returns_handle :
    (DeviceInterfaceError.from_test_result 0 = .ok () ∧
     DeviceInterfaceError.from_test_result 1 = .error .ClockLineLow ∧
     DeviceInterfaceError.from_test_result 2 = .error .ClockLineHigh ∧
     DeviceInterfaceError.from_test_result 3 = .error .DataLineLow ∧
     DeviceInterfaceError.from_test_result 4 = .error .DataLineHigh ∧
     (∀ v, 4 < v →
       DeviceInterfaceError.from_test_result v = .error (.UnknownValue v))) ∧
    (∀ (h : Hardware) (e : DeviceInterfaceError),
      DeviceInterfaceError.from_test_result h.keyboardTestResult = .error e →
        enable_keyboard h = .error
          ({ h with output := none,
                    commandWrites :=
                      h.commandWrites ++ [RawCommands.KEYBOARD_INTERFACE_TEST] }, e) ∧
        enable_keyboard_and_interrupts h = .error
          ({ h with output := none,
                    commandWrites :=
                      h.commandWrites ++ [RawCommands.KEYBOARD_INTERFACE_TEST] }, e)) ∧
    (∀ (h : Hardware) (e : DeviceInterfaceError),
      DeviceInterfaceError.from_test_result h.auxTestResult = .error e →
        enable_auxiliary_device h = .error
          ({ h with output := none,
                    commandWrites :=
                      h.commandWrites ++
                        [RawCommands.AUXILIARY_DEVICE_INTERFACE_TEST] }, e) ∧
        enable_auxiliary_device_and_interrupts h = .error
          ({ h with output := none,
                    commandWrites :=
                      h.commandWrites ++
                        [RawCommands.AUXILIARY_DEVICE_INTERFACE_TEST] }, e)) ∧
    (∀ (h : Hardware) (e : DeviceInterfaceError),
      DeviceInterfaceError.from_test_result h.keyboardTestResult = .error e →
        enable_keyboard_and_auxiliary_device h = .error
          ({ h with output := none,
                    commandWrites :=
                      h.commandWrites ++
                        [RawCommands.KEYBOARD_INTERFACE_TEST,
                         RawCommands.AUXILIARY_DEVICE_INTERFACE_TEST] },
           InterfaceError.Keyboard e) ∧
        enable_keyboard_and_auxiliary_device_and_interrupts h = .error
          ({ h with output := none,
                    commandWrites :=
                      h.commandWrites ++
                        [RawCommands.KEYBOARD_INTERFACE_TEST,
                         RawCommands.AUXILIARY_DEVICE_INTERFACE_TEST] },
           InterfaceError.Keyboard e)) ∧
    (∀ (h : Hardware) (e : DeviceInterfaceError),
      DeviceInterfaceError.from_test_result h.keyboardTestResult = .ok () →
      DeviceInterfaceError.from_test_result h.auxTestResult = .error e →
        enable_keyboard_and_auxiliary_device h = .error
          ({ h with output := none,
                    commandWrites :=
                      h.commandWrites ++
                        [RawCommands.KEYBOARD_INTERFACE_TEST,
                         RawCommands.AUXILIARY_DEVICE_INTERFACE_TEST] },
           InterfaceError.AuxiliaryDevice e) ∧
        enable_keyboard_and_auxiliary_device_and_interrupts h = .error
          ({ h with output := none,
                    commandWrites :=
                      h.commandWrites ++
                        [RawCommands.KEYBOARD_INTERFACE_TEST,
                         RawCommands.AUXILIARY_DEVICE_INTERFACE_TEST] },
           InterfaceError.AuxiliaryDevice e)) := by
  refine ⟨⟨rfl, rfl, rfl, rfl, rfl, ?_⟩, ?_, ?_, ?_, ?_⟩
  · intro v hv
    unfold DeviceInterfaceError.from_test_result
    rw [if_neg (by omega), if_neg (by omega), if_neg (by omega), if_neg (by omega),
      if_neg (by omega)]
  · intro h e he
    constructor
    · unfold enable_keyboard
      rw [keyboard_interface_test_eq, he]
    · unfold enable_keyboard_and_interrupts
      rw [keyboard_interface_test_eq, he]
  · intro h e he
    constructor
    · unfold enable_auxiliary_device
      rw [auxiliary_device_interface_test_eq, he]
    · unfold enable_auxiliary_device_and_interrupts
      rw [auxiliary_device_interface_test_eq, he]
  · intro h e he
    constructor
    · unfold enable_keyboard_and_auxiliary_device
      rw [test_keyboard_and_auxiliary_device_fail_keyboard h e he]
    · unfold enable_keyboard_and_auxiliary_device_and_interrupts
      rw [test_keyboard_and_auxiliary_device_fail_keyboard h e he]
  · intro h e hk ha
    constructor
    · unfold enable_keyboard_and_auxiliary_device
      rw [test_keyboard_and_auxiliary_device_fail_aux h e hk ha]
    · unfold enable_keyboard_and_auxiliary_device_and_interrupts
      rw [test_keyboard_and_auxiliary_device_fail_aux h e hk ha]

/-- Witness for the C6 theorem, at the spec's cited scenario: a keyboard
interface test answering byte 2 makes enable_keyboard_and_auxiliary_device
return Err((handle, InterfaceError::Keyboard(ClockLineHigh))), the handle's
only port traffic being the two test commands. -/
theorem enable_transition_failure_returns_handle_witness :
    enable_keyboard_and_auxiliary_device
      { commandByte := 0x45, output := none, pendingDataCommand := none,
        keyboardInterfaceEnabled := false, auxiliaryInterfaceEnabled := false,
        keyboardTestResult := 2, auxTestResult := 0, selfTestResult := 0x55,
        selfTestResetValue := 0, commandWrites := [], dataWrites := [],
        keyboardSends := [], auxiliaryDeviceSends := [] } =
      .error
        ({ commandByte := 0x45, output := none, pendingDataCommand := none,
           keyboardInterfaceEnabled := false, auxiliaryInterfaceEnabled := false,
           keyboardTestResult := 2, auxTestResult := 0, selfTestResult := 0x55,
           selfTestResetValue := 0,
           commandWrites :=
             [RawCommands.KEYBOARD_INTERFACE_TEST,
              RawCommands.AUXILIARY_DEVICE_INTERFACE_TEST],
           dataWrites := [], keyboardSends := [], auxiliaryDeviceSends := [] },
         InterfaceError.Keyboard DeviceInterfaceError.ClockLineHigh) :=
  (enable_transition_failure_returns_handle.2.2.2.1
    { commandByte := 0x45, output := none, pendingDataCommand := none,
      keyboardInterfaceEnabled := false, auxiliaryInterfaceEnabled := false,
      keyboardTestResult := 2, auxTestResult := 0, selfTestResult := 0x55,
      selfTestResetValue := 0, commandWrites := [], dataWrites := [],
      keyboardSends := [], auxiliaryDeviceSends := [] }
    DeviceInterfaceError.ClockLineHigh rfl).1

/-- space_available(1) is exactly: the FIFO holds fewer commands than the
capacity. -/
lemma CommandQueue.space_one (q : CommandQueue) :
    q.space_available 1 = true ↔ q.commands.length < q.cap := by
  unfold CommandQueue.space_available
  simp
  omega

/-- space_available(2) leaves room for two more commands. -/
lemma CommandQueue.space_two (q : CommandQueue) :
    q.space_available 2 = true ↔ q.commands.length + 2 ≤ q.cap := by
  unfold CommandQueue.space_available
  simp
  omega

/-- Basic facts about add: the capacity field is preserved, a push into a
non-full FIFO succeeds, and the FIFO grows by at most one element. -/
lemma CommandQueue.add_facts (q : CommandQueue) (c : Command) :
    (q.add c).1.cap = q.cap ∧
    (q.commands.length < q.cap → (q.add c).2.2 = Except.ok ()) ∧
    (q.add c).1.commands.length ≤ q.commands.length + 1 := by
  unfold CommandQueue.add
  by_cases hl : q.commands.length < q.cap
  · rw [if_pos hl]
    cases hcn : q.command_checker.current_command <;>
      cases hcs : q.commands <;>
      simp_all [CommandChecker.send_new_command]
  · rw [if_neg hl]
    cases hcn : q.command_checker.current_command <;>
      cases hcs : q.commands <;>
      simp_all [CommandChecker.send_new_command]
    omega

/-- The single-command session-method pattern never panics: with space the
add succeeds (the unwrap is safe), without space the method returns the
queue-full error and an unchanged session. -/
lemma Keyboard.addOne_facts (kb : Keyboard) (ns : Option KState) (c : Command) :
    (kb.commands.space_available 1 = true → issuesOk (Keyboard.addOne kb ns c)) ∧
    (kb.commands.space_available 1 = false →
      Keyboard.addOne kb ns c = some (kb, [], .error ⟨⟩)) := by
  constructor <;> intro hs
  · have hlt := (CommandQueue.space_one kb.commands).mp hs
    have hok := (CommandQueue.add_facts kb.commands c).2.1 hlt
    unfold Keyboard.addOne
    cases ns <;>
      · simp only [hs, if_true]
        rcases hadd : kb.commands.add c with ⟨q, sent, r⟩
        rw [hadd] at hok
        simp only at hok
        subst hok
        exact ⟨_, _, rfl⟩
  · unfold Keyboard.addOne
    simp [hs]

/-- Claim C10: the RateValue::new constructor guard panics exactly on the
arguments with a bit outside the low five set (modelled: returns none);
and no command-issuing session method ever panics: each returns the
queue-full error with the session unchanged when space_available fails, and
otherwise its internal unwraps succeed - including the two-command
set_alternate_scancode_set guarded by a single space_available(2) check. -/
theorem no_steady_state_panics :
    (∀ v, v < 256 → (RateValue.new v = none ↔ v &&& 0b11100000 ≠ 0)) ∧
    (∀ kb : Keyboard,
      (kb.commands.space_available 1 = true →
        issuesOk kb.set_defaults_and_disable ∧
        issuesOk kb.set_defaults_and_enable ∧
        issuesOk kb.enable ∧
        (∀ i, issuesOk (kb.set_status_indicators i)) ∧
        (∀ sa, issuesOk (kb.scancode_set_3_set_all_keys sa)) ∧
        (∀ st sc, issuesOk (kb.scancode_set_3_set_key_type st sc)) ∧
        (∀ de ra, issuesOk (kb.set_typematic_rate de ra)) ∧
        issuesOk kb.read_id ∧
        issuesOk kb.echo) ∧
      (kb.commands.space_available 1 = false →
        kb.set_defaults_and_disable = some (kb, [], .error ⟨⟩) ∧
        kb.set_defaults_and_enable = some (kb, [], .error ⟨⟩) ∧
        kb.enable = some (kb, [], .error ⟨⟩) ∧
        (∀ i, kb.set_status_indicators i = some (kb, [], .error ⟨⟩)) ∧
        (∀ sa, kb.scancode_set_3_set_all_keys sa = some (kb, [], .error ⟨⟩)) ∧
        (∀ st sc, kb.scancode_set_3_set_key_type st sc = some (kb, [], .error ⟨⟩)) ∧
        (∀ de ra, kb.set_typematic_rate de ra = some (kb, [], .error ⟨⟩)) ∧
        kb.read_id = some (kb, [], .error ⟨⟩) ∧
        kb.echo = some (kb, [], .error ⟨⟩)) ∧
      (∀ s, kb.commands.space_available 2 = true →
        issuesOk (kb.set_alternate_scancode_set s)) ∧
      (∀ s, kb.commands.space_available 2 = false →
        kb.set_alternate_scancode_set s = some (kb, [], .error ⟨⟩))) := by
  refine ⟨by decide, fun kb => ⟨?_, ?_, ?_, ?_⟩⟩
  · intro hs
    exact ⟨(Keyboard.addOne_facts kb _ _).1 hs, (Keyboard.addOne_facts kb _ _).1 hs,
      (Keyboard.addOne_facts kb _ _).1 hs, fun i => (Keyboard.addOne_facts kb _ _).1 hs,
      fun sa => (Keyboard.addOne_facts kb _ _).1 hs,
      fun st sc => (Keyboard.addOne_facts kb _ _).1 hs,
      fun de ra => (Keyboard.addOne_facts kb _ _).1 hs,
      (Keyboard.addOne_facts kb _ _).1 hs, (Keyboard.addOne_facts kb _ _).1 hs⟩
  · intro hs
    exact ⟨(Keyboard.addOne_facts kb _ _).2 hs, (Keyboard.addOne_facts kb _ _).2 hs,
      (Keyboard.addOne_facts kb _ _).2 hs, fun i => (Keyboard.addOne_facts kb _ _).2 hs,
      fun sa => (Keyboard.addOne_facts kb _ _).2 hs,
      fun st sc => (Keyboard.addOne_facts kb _ _).2 hs,
      fun de ra => (Keyboard.addOne_facts kb _ _).2 hs,
      (Keyboard.addOne_facts kb _ _).2 hs, (Keyboard.addOne_facts kb _ _).2 hs⟩
  · intro s hs
    have hle := (CommandQueue.space_two kb.commands).mp hs
    have hlt1 : kb.commands.commands.length < kb.commands.cap := by omega
    have hok1 := (CommandQueue.add_facts kb.commands
      (Command.set_alternate_scancodes s)).2.1 hlt1
    have hcap1 := (CommandQueue.add_facts kb.commands
      (Command.set_alternate_scancodes s)).1
    have hlen1 := (CommandQueue.add_facts kb.commands
      (Command.set_alternate_scancodes s)).2.2
    unfold Keyboard.set_alternate_scancode_set
    simp only [hs, if_true]
    rcases hadd1 : kb.commands.add (Command.set_alternate_scancodes s) with ⟨q1, s1, r1⟩
    rw [hadd1] at hok1 hcap1 hlen1
    simp only at hok1 hcap1 hlen1
    subst hok1
    have hlt2 : q1.commands.length < q1.cap := by omega
    have hok2 := (CommandQueue.add_facts q1 Command.get_current_scancode_set).2.1 hlt2
    rcases hadd2 : q1.add Command.get_current_scancode_set with ⟨q2, s2, r2⟩
    rw [hadd2] at hok2
    simp only at hok2
    subst hok2
    exact ⟨_, _, rfl⟩
  · intro s hs
    unfold Keyboard.set_alternate_scancode_set
    simp [hs]

/-- Witness for the C10 theorem: the rate value 0x20 has a bit outside the
low five and is rejected by the constructor guard. -/
theorem no_steady_state_panics_witness : RateValue.new 0x20 = none :=
  (no_steady_state_panics.1 0x20 (by decide)).mpr (by decide)

/-- Claim C9 (counterexample): on the handle type produced by enabling only
the keyboard - EnabledDevices of KeyboardEnabled, Disabled, Disabled - the
AuxiliaryDeviceIO impl does not exist, so send_to_auxiliary_device cannot
even be called (there is no runtime gate and no Err(()) value; the gate is
the type system). -/
theorem aux_send_not_available_on_keyboard_only_handle :
    auxiliaryDeviceSendAvailable enableKeyboardTypeParams = false := by
  rfl

/-- Claim C9 (amended): gating of the send operations is type-level, not
runtime: the keyboard-only EnabledDevices handle supports send_to_keyboard
- a unit-returning method that just writes the byte to the data port - but
does not implement AuxiliaryDeviceIO at all, so send_to_auxiliary_device
(which, where available, issues the 0xD4 controller command followed by
the byte) cannot be called on it; neither method returns a Result. -/
theorem send_gating_is_type_level :
    keyboardSendAvailable enableKeyboardTypeParams = true ∧
    auxiliaryDeviceSendAvailable enableKeyboardTypeParams = false ∧
    (∀ (h : Hardware) (data : Nat),
      (send_to_keyboard h data).dataWrites = h.dataWrites ++ [data]) ∧
    (∀ (h : Hardware) (data : Nat),
      (send_to_auxiliary_device h data).commandWrites =
        h.commandWrites ++ [RawCommands.WRITE_TO_AUXILIARY_DEVICE] ∧
      (send_to_auxiliary_device h data).auxiliaryDeviceSends =
        h.auxiliaryDeviceSends ++ [data]) := by
  refine ⟨rfl, rfl, ?_, ?_⟩
  · intro h data
    unfold send_to_keyboard Hardware.writeDataPort
    cases h.pendingDataCommand
    · rfl
    · dsimp only
      split_ifs <;> rfl
  · intro h data
    constructor <;>
      simp [send_to_auxiliary_device, send_controller_command_and_write_data,
        send_controller_command, Hardware.writeCommandPort, Hardware.writeDataPort,
        RawCommands.WRITE_TO_AUXILIARY_DEVICE, RawCommands.READ_CONTROLLER_COMMAND_BYTE,
        RawCommands.WRITE_CONTROLLER_COMMAND_BYTE, RawCommands.SELF_TEST,
        RawCommands.KEYBOARD_INTERFACE_TEST, RawCommands.AUXILIARY_DEVICE_INTERFACE_TEST,
        RawCommands.DISABLE_KEYBOARD_INTERFACE, RawCommands.ENABLE_KEYBOARD_INTERFACE,
        RawCommands.DISABLE_AUXILIARY_DEVICE_INTERFACE,
        RawCommands.ENABLE_AUXILIARY_DEVICE_INTERFACE]

end Ps2
